import Mathlib

/-!
A shallow embedding of the subscription / promo-code subsystem of the
fitness backend (`api/subscription/subscription.py`, `models/promo.py`,
`models/subscription.py`), together with proofs about its behaviour.

Modelling conventions:
* Instants (`datetime` values) are UTC epoch seconds as `Int`; a
  `timedelta(days=n)` is `n * daySecs`.  The naive/aware normalisation done
  by the handlers (`replace(tzinfo=timezone.utc)`) is the identity under
  this convention, and `utcnow` / `_utcnow_naive` both become a `now : Int`
  parameter.
* Mongo object ids are `Nat`, allocated from a counter (`St.nextId`).
* Each collection is a `List` of documents; `find_one` and
  `find_one_and_update` return the first document satisfying the filter.
* Free-form entries of the `SubscriptionTransaction.store` blob that no
  theorem observes (`receipt`, `provider_tx_id`, the raw webhook payload)
  are elided from the transaction document.
-/

namespace FitnessSub

/-- Promo code lifecycle status (`models/enums.py`, `PromoStatus`). -/
inductive PromoStatus where
  | active
  | disabled
  deriving DecidableEq, Repr

/-- Subscription lifecycle status (`models/enums.py`, `SubscriptionStatus`). -/
inductive SubscriptionStatus where
  | active
  | expired
  | canceled
  | grace
  deriving DecidableEq, Repr

/-- Subscription source (`models/enums.py`, `SubscriptionSource`). -/
inductive SubscriptionSource where
  | appstore
  | googleplay
  | rustore
  | web
  | promo
  deriving DecidableEq, Repr

/-- A document of the `promo_codes` collection (`models/promo.py`,
`PromoCode`).  `id` is the Mongo `_id`; `batch_id`, `created_at` and
`updated_at` are elided (no theorem observes them). -/
structure PromoDoc where
  id : Nat
  code : String
  duration_days : Int
  max_uses : Int
  used_count : Int
  expires_at : Option Int
  status : PromoStatus
  deriving DecidableEq, Repr

/-- The filter of `promo_atomic_claim`'s conditional update
(`subscription.py`, lines 227-237): the code matches, the status is
`active`, `expires_at` is null/absent or strictly after `now`, and
`used_count < max_uses`.  The `$ifNull` defaults (0 for `used_count`, 1 for
`max_uses`) apply only to absent fields; every document created by this
service carries both fields, which the embedding keeps present. -/
def claimMatches (now : Int) (code : String) (d : PromoDoc) : Bool :=
  decide (d.code = code) && decide (d.status = PromoStatus.active) &&
    (match d.expires_at with
     | none => true
     | some e => decide (now < e)) &&
    decide (d.used_count < d.max_uses)

/-- `promo_atomic_claim` (`subscription.py`, lines 221-239): a single
`find_one_and_update` with `ReturnDocument.AFTER`.  The first document
matching the filter gets `used_count` incremented by 1 and is returned
post-increment; with no match the collection is unchanged and `none` is
returned. -/
def promo_atomic_claim (now : Int) (code : String) :
    List PromoDoc → Option PromoDoc × List PromoDoc
  | [] => (none, [])
  | d :: ds =>
    if claimMatches now code d then
      (some { d with used_count := d.used_count + 1 },
       { d with used_count := d.used_count + 1 } :: ds)
    else
      let r := promo_atomic_claim now code ds
      (r.1, d :: r.2)

/-- The filter of `promo_atomic_rollback`'s conditional update:
`{"code": code, "used_count": {"$gt": 0}}`. -/
def rollbackMatches (code : String) (d : PromoDoc) : Bool :=
  decide (d.code = code) && decide (0 < d.used_count)

/-- `promo_atomic_rollback` (`subscription.py`, lines 242-246): decrement
`used_count` of the first document with the given code and a positive
`used_count`; no match leaves the collection unchanged. -/
def promo_atomic_rollback (code : String) : List PromoDoc → List PromoDoc
  | [] => []
  | d :: ds =>
    if rollbackMatches code d then { d with used_count := d.used_count - 1 } :: ds
    else d :: promo_atomic_rollback code ds

/-- One mutation of the `promo_codes` collection: the only two code paths
that write `used_count` (`promo_atomic_claim` / `promo_atomic_rollback`). -/
inductive PromoOp where
  | claim (now : Int) (code : String)
  | rollback (code : String)
  deriving DecidableEq, Repr

/-- Apply one claim/rollback operation to the collection. -/
def applyPromoOp (ps : List PromoDoc) : PromoOp → List PromoDoc
  | .claim now code => (promo_atomic_claim now code ps).2
  | .rollback code => promo_atomic_rollback code ps

/-- Apply a sequence of claim/rollback operations to the collection. -/
def applyPromoOps (ps : List PromoDoc) : List PromoOp → List PromoDoc
  | [] => ps
  | op :: ops => applyPromoOps (applyPromoOp ps op) ops

/-- One day in epoch seconds (`timedelta(days=1)`). -/
def daySecs : Int := 86400

/-- Python's `str.strip()` (whitespace from both ends), written by structural
recursion over the character list so that proofs can evaluate it (the
library's `String.trim` is well-founded recursion, which the kernel cannot
reduce). -/
def strTrim (s : String) : String :=
  String.mk ((((s.data.dropWhile Char.isWhitespace).reverse.dropWhile
    Char.isWhitespace).reverse))

/-- Python's `str.lower()`, character-wise, by structural recursion (see
`strTrim` for why the library function is not used). -/
def strLower (s : String) : String :=
  String.mk (s.data.map Char.toLower)

/-- Python's `str.upper()`, character-wise, by structural recursion (see
`strTrim` for why the library function is not used). -/
def strUpper (s : String) : String :=
  String.mk (s.data.map Char.toUpper)

/-- A document of the `subscriptions` collection (`models/subscription.py`,
`Subscription`); `created_at` / `updated_at` are elided. -/
structure Sub where
  id : Nat
  user_id : Nat
  status : SubscriptionStatus
  plan_code : String
  source : SubscriptionSource
  started_at : Int
  expires_at : Int
  grace_until : Option Int
  auto_renew : Bool
  last_transaction_id : Option Nat
  deriving DecidableEq, Repr

/-- `compute_subscription_status` (`subscription.py`, lines 88-109), over the
fields it reads.  `expires_at` and `grace_until` are read defensively
(`getattr` plus falsiness), modelled as `Option`s.  Returns
`(status, is_active, in_grace)`. -/
def compute_subscription_status (now : Int) (expires_at : Option Int)
    (grace_until : Option Int) (auto_renew : Bool) :
    SubscriptionStatus × Bool × Bool :=
  match expires_at with
  | none => (SubscriptionStatus.expired, false, false)
  | some exp =>
    if exp ≤ now then
      match grace_until with
      | some gu =>
        if now < gu then (SubscriptionStatus.grace, false, true)
        else (SubscriptionStatus.expired, false, false)
      | none => (SubscriptionStatus.expired, false, false)
    else if auto_renew then (SubscriptionStatus.active, true, false)
    else (SubscriptionStatus.canceled, true, false)

/-- `upsert_subscription` (`subscription.py`, lines 127-176), reduced to the
document it writes.  `newId` is the id a freshly inserted document receives.
The base instant and `started_at` come from the existing subscription when
its expiry is still strictly in the future, else both are `now`; the stored
document gets `expires_at` at `base` plus `add_days` days, `grace_until` 30
days after that, `auto_renew = True`, `status = active`, and the given
plan/source/transaction fields. -/
def upsert_subscription_doc (now : Int) (existing : Option Sub) (newId : Nat)
    (user_id : Nat) (plan_code : String) (source : SubscriptionSource)
    (add_days : Int) (tx_id : Option Nat) : Sub :=
  let bs : Int × Int :=
    match existing with
    | some ex => if now < ex.expires_at then (ex.expires_at, ex.started_at) else (now, now)
    | none => (now, now)
  let expires_at := bs.1 + add_days * daySecs
  let grace_until := expires_at + 30 * daySecs
  match existing with
  | some ex =>
    { ex with
      plan_code := plan_code
      source := source
      started_at := bs.2
      expires_at := expires_at
      grace_until := some grace_until
      auto_renew := true
      last_transaction_id := tx_id
      status := SubscriptionStatus.active }
  | none =>
    { id := newId
      user_id := user_id
      status := SubscriptionStatus.active
      plan_code := plan_code
      source := source
      started_at := bs.2
      expires_at := expires_at
      grace_until := some grace_until
      auto_renew := true
      last_transaction_id := tx_id }

/-- A document of the `subscription_plans` collection
(`models/subscription.py`, `SubscriptionPlan`); `prices` is elided. -/
structure Plan where
  id : Nat
  code : String
  duration_days : Int
  status : String
  deriving DecidableEq, Repr

/-- A document of the `subscription_transactions` collection
(`models/subscription.py`, `SubscriptionTransaction`).  Of the free-form
`store` blob only the entries the theorems observe are kept: `status`
(`storeStatus`), `error` (`storeError`), `verified_at`, `updated_at` and
`provider`; `receipt`, `provider_tx_id` and the raw webhook payload are
elided.  `promoCode` is the `code` entry of the `promo` blob (`none` for a
purchase transaction); `amount`/`currency` are elided. -/
structure Tx where
  id : Nat
  user_id : Nat
  source : SubscriptionSource
  plan_code : String
  storeStatus : String
  storeError : Option String
  verifiedAt : Option Int
  updatedAt : Option Int
  provider : Option String
  promoCode : Option String
  deriving DecidableEq, Repr

/-- A document of the `promo_redemptions` collection (`models/promo.py`,
`PromoRedemption`); `redeemed_at` is elided.  `tx_id` is
`subscription_transaction_id`. -/
structure Redemption where
  id : Nat
  code : String
  promo_code_id : Nat
  user_id : Nat
  tx_id : Nat
  deriving DecidableEq, Repr

/-- The document store: one list per collection, plus the id allocator for
inserted documents. -/
structure St where
  promos : List PromoDoc
  plans : List Plan
  subs : List Sub
  txs : List Tx
  redemptions : List Redemption
  nextId : Nat
  deriving DecidableEq, Repr

/-- `SubscriptionTransaction.get(tx_id)`. -/
def findTx (st : St) (txId : Nat) : Option Tx :=
  st.txs.find? (fun t => decide (t.id = txId))

/-- `Subscription.find_one(Subscription.user_id == user_id)`. -/
def findSub (st : St) (u : Nat) : Option Sub :=
  st.subs.find? (fun s => decide (s.user_id = u))

/-- `SubscriptionPlan.find_one(code == ..., status == "active")`. -/
def findPlanActive (st : St) (code : String) : Option Plan :=
  st.plans.find? (fun p => decide (p.code = code) && decide (p.status = "active"))

/-- `PromoCode.find_one(PromoCode.code == code)`. -/
def findPromo (ps : List PromoDoc) (code : String) : Option PromoDoc :=
  ps.find? (fun d => decide (d.code = code))

/-- `tx.save()`: replace the document with the same `_id`. -/
def saveTx (st : St) (t : Tx) : St :=
  { st with txs := st.txs.map (fun x => if x.id = t.id then t else x) }

/-- `tx.delete()`: remove the document with the given `_id`. -/
def deleteTx (st : St) (txId : Nat) : St :=
  { st with txs := st.txs.filter (fun x => decide (x.id ≠ txId)) }

/-- `redemption.delete()`: remove the document with the given `_id`. -/
def deleteRedemption (st : St) (rid : Nat) : St :=
  { st with redemptions := st.redemptions.filter (fun r => decide (r.id ≠ rid)) }

/-- `upsert_subscription` (`subscription.py`, lines 127-176) against the
store: look up the user's subscription, build the document of
`upsert_subscription_doc`, and either save it over the existing document or
insert it (consuming one id).  Returns the new store and the stored
document. -/
def upsert_subscription (now : Int) (st : St) (user_id : Nat) (plan_code : String)
    (source : SubscriptionSource) (add_days : Int) (tx_id : Option Nat) : St × Sub :=
  let existing := findSub st user_id
  let s := upsert_subscription_doc now existing st.nextId user_id plan_code source
    add_days tx_id
  match existing with
  | some _ =>
    ({ st with subs := st.subs.map (fun x => if x.id = s.id then s else x) }, s)
  | none =>
    ({ st with subs := s :: st.subs, nextId := st.nextId + 1 }, s)

/-- Result of the `/subscription/verify` handler: either the
`PurchaseVerifyOut` payload (transaction status, subscription view fields)
or an `HTTPException`. -/
inductive VerifyResult where
  | ok (txStatus : String) (sub : Option Sub) (is_active : Bool) (in_grace : Bool)
      (expires_at : Option Int)
  | err (status : Nat) (detail : String)
  deriving DecidableEq, Repr

/-- `verify_purchase` (`subscription.py`, lines 345-429).  The
`transaction_id` string parse and the authentication guard are elided
(`userId` is the authenticated user's id, `txId` the parsed object id);
`receiptNonempty` states that `payload.receipt` is a non-empty dict.  An
already-verified transaction is returned as-is with the current
subscription; otherwise the provider and receipt are validated, the plan is
looked up, and the transaction is marked `failed` (plan missing/inactive)
or `verified` followed by the subscription upsert. -/
def verify_purchase (now : Int) (userId : Nat) (txId : Nat) (provider : String)
    (receiptNonempty : Bool) (st : St) : St × VerifyResult :=
  match findTx st txId with
  | none => (st, .err 404 "Transaction not found")
  | some tx =>
    if ¬ tx.user_id = userId then (st, .err 404 "Transaction not found")
    else if tx.storeStatus = "verified" then
      match findSub st userId with
      | none => (st, .ok "verified" none false false none)
      | some sub =>
        let c := compute_subscription_status now (some sub.expires_at) sub.grace_until
          sub.auto_renew
        (st, .ok "verified" (some sub) c.2.1 c.2.2 (some sub.expires_at))
    else
      let p := strLower (strTrim provider)
      if p = "" ∨ 32 < p.length then (st, .err 400 "Invalid provider")
      else if ¬ receiptNonempty then (st, .err 400 "Receipt required")
      else
        match findPlanActive st tx.plan_code with
        | none =>
          let tx' := { tx with storeStatus := "failed",
                               storeError := some "plan_not_found",
                               updatedAt := some now }
          (saveTx st tx', .err 400 "Plan not found")
        | some plan =>
          let tx' := { tx with storeStatus := "verified", verifiedAt := some now,
                               provider := some p }
          let st1 := saveTx st tx'
          let r := upsert_subscription now st1 userId plan.code tx.source
            plan.duration_days (some txId)
          let c := compute_subscription_status now (some r.2.expires_at)
            r.2.grace_until r.2.auto_renew
          (r.1, .ok "verified" (some r.2) c.2.1 c.2.2 (some r.2.expires_at))

/-- Result of the `/payments/yookassa/webhook` handler. -/
inductive WebhookResult where
  | ok
  | err (status : Nat) (detail : String)
  deriving DecidableEq, Repr

/-- `yookassa_webhook` (`subscription.py`, lines 432-476).  `tokenOk` is the
outcome of `webhook_token_ok` (environment comparison, elided); the
`transaction_id` parse is elided as for `verify_purchase`.  A succeeded
payment marks the transaction `verified` whether or not the plan is found,
and extends the subscription only when it is; a failed/canceled/refunded
payment marks the transaction `failed`; any other status only records the
payload (`updated_at`). -/
def yookassa_webhook (now : Int) (tokenOk : Bool) (txId : Nat) (status : String)
    (st : St) : St × WebhookResult :=
  if ¬ tokenOk then (st, .err 401 "Unauthorized")
  else
    match findTx st txId with
    | none => (st, .err 404 "Transaction not found")
    | some tx =>
      let s := strLower (strTrim status)
      if s = "succeeded" ∨ s = "paid" ∨ s = "success" then
        let plan := findPlanActive st tx.plan_code
        let tx' := { tx with storeStatus := "verified", verifiedAt := some now,
                             updatedAt := some now }
        let st1 := saveTx st tx'
        match plan with
        | some p =>
          ((upsert_subscription now st1 tx.user_id p.code tx.source p.duration_days
              (some txId)).1, .ok)
        | none => (st1, .ok)
      else if s = "failed" ∨ s = "canceled" ∨ s = "cancelled" ∨ s = "refunded" then
        (saveTx st { tx with storeStatus := "failed", storeError := some s,
                             updatedAt := some now }, .ok)
      else
        (saveTx st { tx with updatedAt := some now }, .ok)

/-- `normalize_code` (`subscription.py`, line 62). -/
def normalize_code (code : String) : String := strUpper (strTrim code)

/-- The value of `int(claimed.get("duration_days", promo.duration_days) or 0)`
(`subscription.py`, line 539): `none` models an absent `duration_days` key in
the raw claimed document, which falls back to the parsed promo's value; for
an integer value `v`, `v or 0` is `v`; a null stored in the document behaves
as 0 and is represented as `some 0`. -/
def claimed_duration_days (snapDur : Option Int) (promoDur : Int) : Int :=
  match snapDur with
  | some v => v
  | none => promoDur

/-- Result of the `/subscription/activate-promo` handler: the `PurchaseOut`
payload, an `HTTPException`, or the re-raised step-5 exception. -/
inductive ActivateResult where
  | ok (sub : Sub)
  | err (status : Nat) (detail : String)
  | reraised
  deriving DecidableEq, Repr

/-- The tail of `activate_promo` after a successful atomic claim
(`subscription.py`, lines 539-574): re-read `duration_days` from the claimed
snapshot (`snapDur`, with the parsed promo's `promoDur` as the `.get`
fallback); on a non-positive value roll the claim back, delete the
redemption row and the transaction, and fail with 400; otherwise extend or
create the subscription, and on a step-5 exception (`upsertRaises`) perform
the same rollback chain and re-raise. -/
def activate_promo_finish (now : Int) (userId : Nat) (code : String)
    (snapDur : Option Int) (promoDur : Int) (txId rid : Nat)
    (upsertRaises : Bool) (st : St) : St × ActivateResult :=
  let duration_days := claimed_duration_days snapDur promoDur
  if duration_days ≤ 0 then
    let st1 := { st with promos := promo_atomic_rollback code st.promos }
    (deleteTx (deleteRedemption st1 rid) txId, .err 400 "Promo code invalid duration")
  else
    let plan_code :=
      match findSub st userId with
      | some ex => if ex.plan_code = "" then "promo" else ex.plan_code
      | none => "promo"
    if upsertRaises then
      let st1 := { st with promos := promo_atomic_rollback code st.promos }
      (deleteTx (deleteRedemption st1 rid) txId, .reraised)
    else
      let r := upsert_subscription now st userId plan_code SubscriptionSource.promo
        duration_days (some txId)
      (r.1, .ok r.2)

/-- `activate_promo` (`subscription.py`, lines 479-574), sequentially: code
normalisation and lookup, status/expiry/duration validation, transaction
insert, redemption insert (the `(user_id, promo_code_id)` unique index makes
the duplicate insert fail deterministically, modelled as the pre-check it
enforces), atomic claim with its failure unwinding, then
`activate_promo_finish`.  `upsertRaises` injects the step-5 failure of C3;
the best-effort `try/except` around each compensating delete is modelled
with the deletes succeeding. -/
def activate_promo (now : Int) (userId : Nat) (rawCode : String)
    (upsertRaises : Bool) (st : St) : St × ActivateResult :=
  let code := normalize_code rawCode
  match findPromo st.promos code with
  | none => (st, .err 400 "Invalid promo code")
  | some promo =>
    if ¬ promo.status = PromoStatus.active then (st, .err 400 "Promo code disabled")
    else if (match promo.expires_at with
             | some e => decide (e ≤ now)
             | none => false) then
      (st, .err 400 "Promo code expired")
    else if promo.duration_days ≤ 0 then (st, .err 400 "Promo code invalid duration")
    else
      let tx : Tx := { id := st.nextId, user_id := userId,
                       source := SubscriptionSource.promo, plan_code := "promo",
                       storeStatus := "verified", storeError := none,
                       verifiedAt := some now, updatedAt := none, provider := none,
                       promoCode := some code }
      let st1 : St := { st with txs := tx :: st.txs, nextId := st.nextId + 1 }
      if st1.redemptions.any
          (fun r => decide (r.user_id = userId) && decide (r.promo_code_id = promo.id)) then
        (deleteTx st1 tx.id, .err 400 "Promo code already used")
      else
        let red : Redemption := { id := st1.nextId, code := code,
                                  promo_code_id := promo.id, user_id := userId,
                                  tx_id := tx.id }
        let st2 : St := { st1 with
                          redemptions := red :: st1.redemptions
                          nextId := st1.nextId + 1 }
        let cl := promo_atomic_claim now code st2.promos
        match cl.1 with
        | none =>
          (deleteTx (deleteRedemption { st2 with promos := cl.2 } red.id) tx.id,
           .err 400 "Promo code limit reached or expired")
        | some claimed =>
          activate_promo_finish now userId code (some claimed.duration_days)
            promo.duration_days tx.id red.id upsertRaises
            { st2 with promos := cl.2 }

/-- Store well-formedness: ids of stored transactions and redemptions are
below the allocator (Mongo never hands out a duplicate `_id`), stored
`used_count`s are non-negative (the schema's `ge=0`), and promo codes are
pairwise distinct (the unique index on `code`). -/
def StWF (st : St) : Prop :=
  (∀ t ∈ st.txs, t.id < st.nextId) ∧
  (∀ r ∈ st.redemptions, r.id < st.nextId) ∧
  (∀ d ∈ st.promos, 0 ≤ d.used_count) ∧
  st.promos.Pairwise (fun a b => a.code ≠ b.code)

end FitnessSub

namespace FitnessSub

lemma claim_cons_pos {now : Int} {code : String} {d : PromoDoc} (ds : List PromoDoc)
    (h : claimMatches now code d = true) :
    promo_atomic_claim now code (d :: ds) =
      (some { d with used_count := d.used_count + 1 },
       { d with used_count := d.used_count + 1 } :: ds) := by
  simp [promo_atomic_claim, h]

lemma claim_cons_neg {now : Int} {code : String} {d : PromoDoc} (ds : List PromoDoc)
    (h : ¬ claimMatches now code d = true) :
    promo_atomic_claim now code (d :: ds) =
      ((promo_atomic_claim now code ds).1, d :: (promo_atomic_claim now code ds).2) := by
  simp [promo_atomic_claim, h]

lemma rollback_cons_pos {code : String} {d : PromoDoc} (ds : List PromoDoc)
    (h : rollbackMatches code d = true) :
    promo_atomic_rollback code (d :: ds) =
      { d with used_count := d.used_count - 1 } :: ds := by
  simp [promo_atomic_rollback, h]

lemma rollback_cons_neg {code : String} {d : PromoDoc} (ds : List PromoDoc)
    (h : ¬ rollbackMatches code d = true) :
    promo_atomic_rollback code (d :: ds) = d :: promo_atomic_rollback code ds := by
  simp [promo_atomic_rollback, h]

lemma claimMatches_lt {now : Int} {code : String} {d : PromoDoc}
    (h : claimMatches now code d = true) : d.used_count < d.max_uses := by
  simp only [claimMatches, Bool.and_eq_true, decide_eq_true_eq] at h
  exact h.2

lemma rollbackMatches_pos {code : String} {d : PromoDoc}
    (h : rollbackMatches code d = true) : 0 < d.used_count := by
  simp only [rollbackMatches, Bool.and_eq_true, decide_eq_true_eq] at h
  exact h.2

lemma claim_preserves_bounds (now : Int) (code : String) (ps : List PromoDoc)
    (h : ∀ d ∈ ps, 0 ≤ d.used_count ∧ d.used_count ≤ d.max_uses) :
    ∀ d ∈ (promo_atomic_claim now code ps).2,
      0 ≤ d.used_count ∧ d.used_count ≤ d.max_uses := by
  induction ps with
  | nil => simp [promo_atomic_claim]
  | cons d ds ih =>
    have hd := h d (by simp)
    have hds : ∀ x ∈ ds, 0 ≤ x.used_count ∧ x.used_count ≤ x.max_uses :=
      fun x hx => h x (by simp [hx])
    by_cases hm : claimMatches now code d = true
    · have hlt : d.used_count < d.max_uses := claimMatches_lt hm
      intro x hx
      rw [claim_cons_pos ds hm] at hx
      rcases List.mem_cons.mp hx with hx | hx
      · subst hx
        refine ⟨?_, ?_⟩ <;> simp <;> omega
      · exact hds x hx
    · intro x hx
      rw [claim_cons_neg ds hm] at hx
      rcases List.mem_cons.mp hx with hx | hx
      · subst hx; exact hd
      · exact ih hds x hx

lemma rollback_preserves_bounds (code : String) (ps : List PromoDoc)
    (h : ∀ d ∈ ps, 0 ≤ d.used_count ∧ d.used_count ≤ d.max_uses) :
    ∀ d ∈ promo_atomic_rollback code ps,
      0 ≤ d.used_count ∧ d.used_count ≤ d.max_uses := by
  induction ps with
  | nil => simp [promo_atomic_rollback]
  | cons d ds ih =>
    have hd := h d (by simp)
    have hds : ∀ x ∈ ds, 0 ≤ x.used_count ∧ x.used_count ≤ x.max_uses :=
      fun x hx => h x (by simp [hx])
    by_cases hm : rollbackMatches code d = true
    · have hpos : 0 < d.used_count := rollbackMatches_pos hm
      intro x hx
      rw [rollback_cons_pos ds hm] at hx
      rcases List.mem_cons.mp hx with hx | hx
      · subst hx
        refine ⟨?_, ?_⟩ <;> simp <;> omega
      · exact hds x hx
    · intro x hx
      rw [rollback_cons_neg ds hm] at hx
      rcases List.mem_cons.mp hx with hx | hx
      · subst hx; exact hd
      · exact ih hds x hx

lemma op_preserves_bounds (op : PromoOp) (ps : List PromoDoc)
    (h : ∀ d ∈ ps, 0 ≤ d.used_count ∧ d.used_count ≤ d.max_uses) :
    ∀ d ∈ applyPromoOp ps op, 0 ≤ d.used_count ∧ d.used_count ≤ d.max_uses := by
  cases op with
  | claim now code => exact claim_preserves_bounds now code ps h
  | rollback code => exact rollback_preserves_bounds code ps h

/-- C1: `used_count` stays within `0 ≤ used_count ≤ max_uses` under every
sequence of `promo_atomic_claim` / `promo_atomic_rollback` operations
starting from freshly created codes (`used_count = 0`, `max_uses ≥ 0`):
the claim increments only when `used_count < max_uses` and the rollback
decrements only when `used_count > 0`, so the stored count never exceeds
`max_uses` and never goes negative. -/
theorem promo_used_count_invariant (ps : List PromoDoc) (ops : List PromoOp)
    (h0 : ∀ d ∈ ps, d.used_count = 0 ∧ 0 ≤ d.max_uses) :
    ∀ d ∈ applyPromoOps ps ops, 0 ≤ d.used_count ∧ d.used_count ≤ d.max_uses := by
  have hinv : ∀ d ∈ ps, 0 ≤ d.used_count ∧ d.used_count ≤ d.max_uses := by
    intro d hd
    obtain ⟨h1, h2⟩ := h0 d hd
    omega
  clear h0
  induction ops generalizing ps with
  | nil => simpa [applyPromoOps] using hinv
  | cons op ops ih =>
    simpa [applyPromoOps] using ih (applyPromoOp ps op) (op_preserves_bounds op ps hinv)

/-- Witness for C1 at a concrete promo collection and operation sequence. -/
theorem promo_used_count_invariant_witness :
    (∀ d ∈ [PromoDoc.mk 1 "A" 30 2 0 none PromoStatus.active],
        d.used_count = 0 ∧ 0 ≤ d.max_uses) ∧
    (∀ d ∈ applyPromoOps [PromoDoc.mk 1 "A" 30 2 0 none PromoStatus.active]
        [PromoOp.claim 0 "A", PromoOp.claim 0 "A", PromoOp.claim 0 "A",
         PromoOp.rollback "A"],
        0 ≤ d.used_count ∧ d.used_count ≤ d.max_uses) :=
  ⟨by decide, promo_used_count_invariant _ _ (by decide)⟩

lemma claim_none_iff (now : Int) (code : String) (ps : List PromoDoc) :
    (promo_atomic_claim now code ps).1 = none ↔
      ∀ d ∈ ps, claimMatches now code d = false := by
  induction ps with
  | nil => simp [promo_atomic_claim]
  | cons d ds ih =>
    by_cases hm : claimMatches now code d = true
    · rw [claim_cons_pos ds hm]
      simp [hm]
    · rw [claim_cons_neg ds hm]
      simp only [List.mem_cons]
      constructor
      · intro h x hx
        rcases hx with hx | hx
        · subst hx; simpa using hm
        · exact (ih.mp h) x hx
      · intro h
        exact ih.mpr (fun x hx => h x (Or.inr hx))

lemma claim_none_unchanged (now : Int) (code : String) (ps : List PromoDoc)
    (h : (promo_atomic_claim now code ps).1 = none) :
    (promo_atomic_claim now code ps).2 = ps := by
  induction ps with
  | nil => simp [promo_atomic_claim]
  | cons d ds ih =>
    by_cases hm : claimMatches now code d = true
    · rw [claim_cons_pos ds hm] at h
      simp at h
    · rw [claim_cons_neg ds hm] at h ⊢
      simpa using ih h

lemma claim_some_shape (now : Int) (code : String) (ps : List PromoDoc)
    (snap : PromoDoc) (h : (promo_atomic_claim now code ps).1 = some snap) :
    ∃ l pre r, ps = l ++ pre :: r ∧
      (∀ d ∈ l, claimMatches now code d = false) ∧
      claimMatches now code pre = true ∧
      snap = { pre with used_count := pre.used_count + 1 } ∧
      (promo_atomic_claim now code ps).2 = l ++ snap :: r := by
  induction ps with
  | nil => simp [promo_atomic_claim] at h
  | cons d ds ih =>
    by_cases hm : claimMatches now code d = true
    · rw [claim_cons_pos ds hm] at h
      simp only [Option.some.injEq] at h
      refine ⟨[], d, ds, by simp, by simp, hm, h.symm, ?_⟩
      rw [claim_cons_pos ds hm]
      simp [h]
    · rw [claim_cons_neg ds hm] at h
      obtain ⟨l, pre, r, hsplit, hl, hpre, hsnap, htail⟩ := ih h
      refine ⟨d :: l, pre, r, by simp [hsplit], ?_, hpre, hsnap, ?_⟩
      · intro x hx
        rcases List.mem_cons.mp hx with hx | hx
        · subst hx; simpa using hm
        · exact hl x hx
      · rw [claim_cons_neg ds hm]
        simp [htail]

/-- C2: `promo_atomic_claim` succeeds (returns a snapshot) exactly when a
document with the given code exists that is `active`, has a null or
still-future `expires_at`, and has `used_count < max_uses`.  On success the
(first) matching document's `used_count` is incremented by exactly 1, the
returned snapshot is that post-increment document (with all other fields,
`duration_days` included, unchanged), and every other document is left
alone.  On failure the collection is unchanged. -/
theorem promo_atomic_claim_spec (now : Int) (code : String) (ps : List PromoDoc) :
    (¬ (promo_atomic_claim now code ps).1 = none ↔
        ∃ d ∈ ps, claimMatches now code d = true) ∧
    ((promo_atomic_claim now code ps).1 = none →
        (promo_atomic_claim now code ps).2 = ps) ∧
    (∀ snap, (promo_atomic_claim now code ps).1 = some snap →
      ∃ l pre r, ps = l ++ pre :: r ∧
        (∀ d ∈ l, claimMatches now code d = false) ∧
        claimMatches now code pre = true ∧
        snap = { pre with used_count := pre.used_count + 1 } ∧
        (promo_atomic_claim now code ps).2 = l ++ snap :: r) := by
  refine ⟨?_, claim_none_unchanged now code ps, claim_some_shape now code ps⟩
  constructor
  · intro h
    by_contra hne
    push_neg at hne
    have : ∀ d ∈ ps, claimMatches now code d = false := by
      intro d hd
      have := hne d hd
      simpa using this
    exact h ((claim_none_iff now code ps).mpr this)
  · intro ⟨d, hd, hmatch⟩ hnone
    have := (claim_none_iff now code ps).mp hnone d hd
    simp [hmatch] at this

/-- Witness for C2 at a concrete collection: the claim succeeds on an
eligible document. -/
theorem promo_atomic_claim_spec_witness :
    ((promo_atomic_claim 0 "A" [PromoDoc.mk 1 "A" 30 2 0 none PromoStatus.active]).1 = none →
        (promo_atomic_claim 0 "A" [PromoDoc.mk 1 "A" 30 2 0 none PromoStatus.active]).2 =
          [PromoDoc.mk 1 "A" 30 2 0 none PromoStatus.active]) ∧
    ¬ (promo_atomic_claim 0 "A" [PromoDoc.mk 1 "A" 30 2 0 none PromoStatus.active]).1 = none :=
  ⟨(promo_atomic_claim_spec 0 "A" _).2.1,
   (promo_atomic_claim_spec 0 "A" _).1.mpr
     ⟨PromoDoc.mk 1 "A" 30 2 0 none PromoStatus.active, by decide, by decide⟩⟩

/-- C7: `compute_subscription_status` implements the four-way case split:
missing `expires_at` gives `(expired, False, False)`; `now < expires_at`
gives `(active, True, False)` when `auto_renew` and `(canceled, True,
False)` otherwise; `expires_at ≤ now < grace_until` gives `(grace, False,
True)`; and otherwise the result is `(expired, False, False)`. -/
theorem compute_subscription_status_cases (now exp : Int) (gu : Option Int) (ar : Bool) :
    (compute_subscription_status now none gu ar = (SubscriptionStatus.expired, false, false)) ∧
    (now < exp → ar = true →
      compute_subscription_status now (some exp) gu ar = (SubscriptionStatus.active, true, false)) ∧
    (now < exp → ar = false →
      compute_subscription_status now (some exp) gu ar = (SubscriptionStatus.canceled, true, false)) ∧
    (∀ g, exp ≤ now → gu = some g → now < g →
      compute_subscription_status now (some exp) gu ar = (SubscriptionStatus.grace, false, true)) ∧
    (exp ≤ now → (∀ g, gu = some g → g ≤ now) →
      compute_subscription_status now (some exp) gu ar = (SubscriptionStatus.expired, false, false)) := by
  refine ⟨rfl, ?_, ?_, ?_, ?_⟩
  · intro h har
    have hx : ¬ exp ≤ now := not_le.mpr h
    simp [compute_subscription_status, hx, har]
  · intro h har
    have hx : ¬ exp ≤ now := not_le.mpr h
    simp [compute_subscription_status, hx, har]
  · intro g h hgu hg
    subst hgu
    simp [compute_subscription_status, h, hg]
  · intro h hall
    cases gu with
    | none => simp [compute_subscription_status, h]
    | some g =>
      have hng : ¬ now < g := not_lt.mpr (hall g rfl)
      simp [compute_subscription_status, h, hng]

/-- Witness for C7 at the spec's own test instants: an expiry one second in
the past with a five-day grace window is in grace; an expiry 31 days in the
past with the same window is expired. -/
theorem compute_subscription_status_cases_witness :
    compute_subscription_status 1000 (some 999) (some (1000 + 5 * daySecs)) true =
      (SubscriptionStatus.grace, false, true) ∧
    compute_subscription_status 1000 (some (1000 - 31 * daySecs))
        (some (1000 - 31 * daySecs + 5 * daySecs)) true =
      (SubscriptionStatus.expired, false, false) :=
  ⟨(compute_subscription_status_cases 1000 999 (some (1000 + 5 * daySecs)) true).2.2.2.1
      (1000 + 5 * daySecs) (by decide) rfl (by decide),
   (compute_subscription_status_cases 1000 (1000 - 31 * daySecs)
        (some (1000 - 31 * daySecs + 5 * daySecs)) true).2.2.2.2
      (by decide) (fun g hg => by
        simp only [Option.some.injEq] at hg
        subst hg
        decide)⟩

/-- C6: the stored expiry is `base` plus `add_days` days where `base` is the
existing expiry when it is still in the future and `now` otherwise (also
`now` with no existing subscription); `grace_until` is always the new expiry
plus 30 days and `auto_renew` is always reset to `true`. -/
theorem upsert_subscription_extends (now : Int) (existing : Option Sub) (newId u : Nat)
    (pc : String) (src : SubscriptionSource) (add : Int) (tx : Option Nat) :
    (existing = none →
      (upsert_subscription_doc now existing newId u pc src add tx).expires_at =
        now + add * daySecs) ∧
    (∀ ex, existing = some ex → now < ex.expires_at →
      (upsert_subscription_doc now existing newId u pc src add tx).expires_at =
        ex.expires_at + add * daySecs) ∧
    (∀ ex, existing = some ex → ex.expires_at ≤ now →
      (upsert_subscription_doc now existing newId u pc src add tx).expires_at =
        now + add * daySecs) ∧
    (upsert_subscription_doc now existing newId u pc src add tx).grace_until =
      some ((upsert_subscription_doc now existing newId u pc src add tx).expires_at +
        30 * daySecs) ∧
    (upsert_subscription_doc now existing newId u pc src add tx).auto_renew = true := by
  cases existing with
  | none => simp [upsert_subscription_doc]
  | some ex =>
    refine ⟨by simp, ?_, ?_, ?_, ?_⟩
    · intro ex' hex' hlt
      simp only [Option.some.injEq] at hex'
      subst hex'
      simp [upsert_subscription_doc, hlt]
    · intro ex' hex' hle
      simp only [Option.some.injEq] at hex'
      subst hex'
      simp [upsert_subscription_doc, not_lt.mpr hle]
    · by_cases h : now < ex.expires_at <;> simp [upsert_subscription_doc, h]
    · by_cases h : now < ex.expires_at <;> simp [upsert_subscription_doc, h]

/-- Witness for C6: a subscription expiring 10 days from now extended by 30
days expires 40 days from now (additive stacking), not 30 days from now. -/
theorem upsert_subscription_extends_witness :
    (upsert_subscription_doc 0
        (some (Sub.mk 5 7 SubscriptionStatus.active "gold" SubscriptionSource.web
          (-100) (10 * daySecs) (some (40 * daySecs)) true none))
        9 7 "gold" SubscriptionSource.web 30 none).expires_at = 40 * daySecs := by
  have h := (upsert_subscription_extends 0
      (some (Sub.mk 5 7 SubscriptionStatus.active "gold" SubscriptionSource.web
        (-100) (10 * daySecs) (some (40 * daySecs)) true none))
      9 7 "gold" SubscriptionSource.web 30 none).2.1
      (Sub.mk 5 7 SubscriptionStatus.active "gold" SubscriptionSource.web
        (-100) (10 * daySecs) (some (40 * daySecs)) true none)
      rfl (by decide)
  rw [h]
  decide

/-- C10: the upsert keeps `started_at` (and the document id and `user_id`)
when the existing subscription is still unexpired, resets `started_at` to
`now` when it has expired or none exists, and in every call overwrites
`plan_code`, `source`, `last_transaction_id`, sets the stored status to
`active`, and leaves `user_id` unchanged. -/
theorem upsert_subscription_frame (now : Int) (existing : Option Sub) (newId u : Nat)
    (pc : String) (src : SubscriptionSource) (add : Int) (tx : Option Nat) :
    (∀ ex, existing = some ex → now < ex.expires_at →
      (upsert_subscription_doc now existing newId u pc src add tx).started_at =
        ex.started_at) ∧
    (∀ ex, existing = some ex → ex.expires_at ≤ now →
      (upsert_subscription_doc now existing newId u pc src add tx).started_at = now) ∧
    (existing = none →
      (upsert_subscription_doc now existing newId u pc src add tx).started_at = now) ∧
    (upsert_subscription_doc now existing newId u pc src add tx).plan_code = pc ∧
    (upsert_subscription_doc now existing newId u pc src add tx).source = src ∧
    (upsert_subscription_doc now existing newId u pc src add tx).last_transaction_id = tx ∧
    (upsert_subscription_doc now existing newId u pc src add tx).status =
      SubscriptionStatus.active ∧
    (∀ ex, existing = some ex →
      (upsert_subscription_doc now existing newId u pc src add tx).user_id = ex.user_id ∧
      (upsert_subscription_doc now existing newId u pc src add tx).id = ex.id) ∧
    (existing = none →
      (upsert_subscription_doc now existing newId u pc src add tx).user_id = u) := by
  cases existing with
  | none =>
    refine ⟨by simp, by simp, ?_, ?_, ?_, ?_, ?_, by simp, ?_⟩ <;>
      simp [upsert_subscription_doc]
  | some ex =>
    refine ⟨?_, ?_, by simp, ?_, ?_, ?_, ?_, ?_, by simp⟩
    · intro ex' hex' hlt
      simp only [Option.some.injEq] at hex'
      subst hex'
      simp [upsert_subscription_doc, hlt]
    · intro ex' hex' hle
      simp only [Option.some.injEq] at hex'
      subst hex'
      simp [upsert_subscription_doc, not_lt.mpr hle]
    · simp [upsert_subscription_doc]
    · simp [upsert_subscription_doc]
    · simp [upsert_subscription_doc]
    · simp [upsert_subscription_doc]
    · intro ex' hex'
      simp only [Option.some.injEq] at hex'
      subst hex'
      exact ⟨by simp [upsert_subscription_doc], by simp [upsert_subscription_doc]⟩

/-- C9: after a successful atomic claim, `activate_promo` re-reads
`duration_days` from the claimed snapshot, falling back to the looked-up
promo's parsed value for an absent key; when the resulting value is
non-positive the handler rolls the claim back (`promo_atomic_rollback`),
deletes the redemption row, deletes the transaction, and fails with a 400
invalid-duration error — an unwind path between the claim and the
subscription extension. -/
theorem activate_promo_bad_duration_unwind (now : Int) (userId : Nat) (code : String)
    (snapDur : Option Int) (promoDur : Int) (txId rid : Nat) (raises : Bool) (st : St) :
    (∀ v, claimed_duration_days (some v) promoDur = v) ∧
    claimed_duration_days none promoDur = promoDur ∧
    (claimed_duration_days snapDur promoDur ≤ 0 →
      activate_promo_finish now userId code snapDur promoDur txId rid raises st =
        (deleteTx (deleteRedemption
            { st with promos := promo_atomic_rollback code st.promos } rid) txId,
         ActivateResult.err 400 "Promo code invalid duration")) := by
  refine ⟨fun v => rfl, rfl, fun h => ?_⟩
  simp [activate_promo_finish, h]

/-- Witness for C9 at a concrete post-claim state whose claimed snapshot
carries a zero duration: the claim is rolled back and both the redemption
row and the transaction are removed. -/
theorem activate_promo_bad_duration_unwind_witness :
    claimed_duration_days (some 0) 30 ≤ 0 ∧
    activate_promo_finish 5 7 "A" (some 0) 30 0 1 false
        (St.mk [PromoDoc.mk 3 "A" 0 2 1 none PromoStatus.active] [] []
          [Tx.mk 0 7 SubscriptionSource.promo "promo" "verified" none (some 5) none none
            (some "A")]
          [Redemption.mk 1 "A" 3 7 0] 2) =
      (deleteTx (deleteRedemption
          { St.mk [PromoDoc.mk 3 "A" 0 2 1 none PromoStatus.active] [] []
              [Tx.mk 0 7 SubscriptionSource.promo "promo" "verified" none (some 5) none none
                (some "A")]
              [Redemption.mk 1 "A" 3 7 0] 2 with
            promos := promo_atomic_rollback "A"
              [PromoDoc.mk 3 "A" 0 2 1 none PromoStatus.active] } 1) 0,
       ActivateResult.err 400 "Promo code invalid duration") :=
  ⟨by decide,
   (activate_promo_bad_duration_unwind 5 7 "A" (some 0) 30 0 1 false
       (St.mk [PromoDoc.mk 3 "A" 0 2 1 none PromoStatus.active] [] []
         [Tx.mk 0 7 SubscriptionSource.promo "promo" "verified" none (some 5) none none
           (some "A")]
         [Redemption.mk 1 "A" 3 7 0] 2)).2.2 (by decide)⟩

/-- Witness for C10 at a concrete unexpired subscription. -/
theorem upsert_subscription_frame_witness :
    (upsert_subscription_doc 0
        (some (Sub.mk 5 7 SubscriptionStatus.canceled "gold" SubscriptionSource.web
          (-100) (10 * daySecs) (some (40 * daySecs)) false none))
        9 7 "promo" SubscriptionSource.promo 30 (some 11)).started_at = -100 :=
  (upsert_subscription_frame 0
      (some (Sub.mk 5 7 SubscriptionStatus.canceled "gold" SubscriptionSource.web
        (-100) (10 * daySecs) (some (40 * daySecs)) false none))
      9 7 "promo" SubscriptionSource.promo 30 (some 11)).1
    (Sub.mk 5 7 SubscriptionStatus.canceled "gold" SubscriptionSource.web
      (-100) (10 * daySecs) (some (40 * daySecs)) false none)
    rfl (by decide)

/-- C8 counterexample: in the webhook entry point a succeeded payment whose
plan no longer exists marks the transaction `verified` (not `failed`), so
the claim that both entry points mark such a transaction `failed` and never
`verified` is false on this concrete input. -/
theorem webhook_plan_missing_counterexample :
    ((yookassa_webhook 0 true 1 "succeeded"
        (St.mk [] [] []
          [Tx.mk 1 7 SubscriptionSource.web "gold" "pending" none none none none none]
          [] 2)).1.txs.map (fun t => t.storeStatus) = ["verified"]) ∧
    (yookassa_webhook 0 true 1 "succeeded"
        (St.mk [] [] []
          [Tx.mk 1 7 SubscriptionSource.web "gold" "pending" none none none none none]
          [] 2)).2 = WebhookResult.ok := by
  decide

/-- C8 (amended): when the transaction's plan does not exist or is not
active, `verify_purchase` marks the transaction `failed` (not `verified`)
and performs no subscription mutation, while the payment-provider webhook
marks the transaction `verified` (not `failed`) and performs no
subscription mutation; in both entry points the subscription is extended
exactly when the plan validation succeeds. -/
theorem plan_validation_gates_extension
    (now : Int) (u txId : Nat) (prov : String) (rec : Bool) (status : String)
    (st : St) (tx : Tx)
    (hfind : findTx st txId = some tx) (hu : tx.user_id = u)
    (hnv : ¬ tx.storeStatus = "verified")
    (hp : ¬ (strLower (strTrim prov) = "" ∨ 32 < (strLower (strTrim prov)).length))
    (hr : rec = true) :
    (findPlanActive st tx.plan_code = none →
      verify_purchase now u txId prov rec st =
        (saveTx st { tx with storeStatus := "failed",
                             storeError := some "plan_not_found",
                             updatedAt := some now },
         VerifyResult.err 400 "Plan not found") ∧
      (verify_purchase now u txId prov rec st).1.subs = st.subs) ∧
    (∀ plan, findPlanActive st tx.plan_code = some plan →
      verify_purchase now u txId prov rec st =
        (let st1 := saveTx st { tx with storeStatus := "verified",
                                        verifiedAt := some now,
                                        provider := some (strLower (strTrim prov)) }
         let r := upsert_subscription now st1 u plan.code tx.source plan.duration_days
           (some txId)
         let c := compute_subscription_status now (some r.2.expires_at) r.2.grace_until
           r.2.auto_renew
         (r.1, VerifyResult.ok "verified" (some r.2) c.2.1 c.2.2 (some r.2.expires_at)))) ∧
    (strLower (strTrim status) = "succeeded" →
      (findPlanActive st tx.plan_code = none →
        yookassa_webhook now true txId status st =
          (saveTx st { tx with storeStatus := "verified", verifiedAt := some now,
                               updatedAt := some now }, WebhookResult.ok) ∧
        (yookassa_webhook now true txId status st).1.subs = st.subs) ∧
      (∀ plan, findPlanActive st tx.plan_code = some plan →
        yookassa_webhook now true txId status st =
          ((upsert_subscription now
              (saveTx st { tx with storeStatus := "verified", verifiedAt := some now,
                                   updatedAt := some now })
              tx.user_id plan.code tx.source plan.duration_days (some txId)).1,
           WebhookResult.ok))) := by
  refine ⟨?_, ?_, ?_⟩
  · intro hplan
    constructor
    · simp only [verify_purchase, hfind, hu, hnv, hp, hr, hplan]
      simp
    · simp only [verify_purchase, hfind, hu, hnv, hp, hr, hplan]
      simp [saveTx]
  · intro plan hplan
    simp only [verify_purchase, hfind, hu, hnv, hp, hr, hplan]
    simp
  · intro hs
    constructor
    · intro hplan
      constructor
      · simp only [yookassa_webhook, hfind, hs, hplan]
        simp
      · simp only [yookassa_webhook, hfind, hs, hplan]
        simp [saveTx]
    · intro plan hplan
      simp only [yookassa_webhook, hfind, hs, hplan]
      simp

/-- Witness for C8 (amended): a concrete pending transaction whose plan is
missing is marked failed by `verify_purchase` with the subscriptions left
untouched. -/
theorem plan_validation_gates_extension_witness :
    findTx
        (St.mk [] [] []
          [Tx.mk 1 7 SubscriptionSource.web "gold" "pending" none none none none none]
          [] 2) 1 =
      some (Tx.mk 1 7 SubscriptionSource.web "gold" "pending" none none none none none) ∧
    (verify_purchase 0 7 1 "apple" true
        (St.mk [] [] []
          [Tx.mk 1 7 SubscriptionSource.web "gold" "pending" none none none none none]
          [] 2)).1.subs =
      (St.mk [] [] []
        [Tx.mk 1 7 SubscriptionSource.web "gold" "pending" none none none none none]
        [] 2).subs :=
  ⟨by decide,
   ((plan_validation_gates_extension 0 7 1 "apple" true "succeeded"
        (St.mk [] [] []
          [Tx.mk 1 7 SubscriptionSource.web "gold" "pending" none none none none none]
          [] 2)
        (Tx.mk 1 7 SubscriptionSource.web "gold" "pending" none none none none none)
        (by decide) (by decide) (by decide) (by decide) rfl).1 (by decide)).2⟩

lemma find_update_list (l : List Tx) (txId : Nat) (tx t' : Tx)
    (hfind : l.find? (fun t => decide (t.id = txId)) = some tx) (hid : t'.id = tx.id) :
    (l.map (fun x => if x.id = t'.id then t' else x)).find?
      (fun t => decide (t.id = txId)) = some t' := by
  have htx : tx.id = txId := by simpa using List.find?_some hfind
  induction l with
  | nil => simp at hfind
  | cons x xs ih =>
    by_cases hx : x.id = txId
    · have hxtx : x = tx := by
        rw [List.find?_cons_of_pos] at hfind
        · simpa using hfind
        · simpa using hx
      subst hxtx
      simp only [List.map_cons]
      rw [if_pos hid.symm]
      exact List.find?_cons_of_pos _ (by simp [hid, htx])
    · have hxt' : ¬ x.id = t'.id := by rw [hid, htx]; exact hx
      simp only [List.map_cons]
      rw [if_neg hxt']
      rw [List.find?_cons_of_neg] at hfind
      · rw [List.find?_cons_of_neg _ (by simpa using hx)]
        exact ih hfind
      · simpa using hx

lemma findTx_saveTx (st : St) (txId : Nat) (tx t' : Tx)
    (hfind : findTx st txId = some tx) (hid : t'.id = tx.id) :
    findTx (saveTx st t') txId = some t' :=
  find_update_list st.txs txId tx t' hfind hid

lemma findTx_eq_of_txs (st st' : St) (txId : Nat) (h : st.txs = st'.txs) :
    findTx st txId = findTx st' txId := by
  simp [findTx, h]

lemma upsert_subscription_unchanged (now : Int) (st : St) (u : Nat) (pc : String)
    (src : SubscriptionSource) (add : Int) (txi : Option Nat) :
    (upsert_subscription now st u pc src add txi).1.txs = st.txs ∧
    (upsert_subscription now st u pc src add txi).1.promos = st.promos ∧
    (upsert_subscription now st u pc src add txi).1.redemptions = st.redemptions ∧
    (upsert_subscription now st u pc src add txi).1.plans = st.plans := by
  cases hfs : findSub st u with
  | none => simp [upsert_subscription, hfs]
  | some ex => simp [upsert_subscription, hfs]

lemma verify_purchase_verified (now : Int) (u txId : Nat) (prov : String) (r : Bool)
    (st : St) (tx : Tx) (hfind : findTx st txId = some tx)
    (hu : tx.user_id = u) (hv : tx.storeStatus = "verified") :
    verify_purchase now u txId prov r st =
      (st, match findSub st u with
           | none => VerifyResult.ok "verified" none false false none
           | some sub =>
             VerifyResult.ok "verified" (some sub)
               (compute_subscription_status now (some sub.expires_at) sub.grace_until
                 sub.auto_renew).2.1
               (compute_subscription_status now (some sub.expires_at) sub.grace_until
                 sub.auto_renew).2.2
               (some sub.expires_at)) := by
  simp only [verify_purchase, hfind]
  rw [if_neg (not_not_intro hu), if_pos hv]
  cases hfs : findSub st u <;> rfl

lemma verify_purchase_ok_tx (now : Int) (u txId : Nat) (prov : String) (r : Bool)
    (st st1 : St) (ts : String) (os : Option Sub) (a g : Bool) (e : Option Int)
    (h : verify_purchase now u txId prov r st = (st1, VerifyResult.ok ts os a g e)) :
    ∃ tx, findTx st1 txId = some tx ∧ tx.user_id = u ∧ tx.storeStatus = "verified" := by
  rcases hft : findTx st txId with _ | tx
  · simp [verify_purchase, hft] at h
  · by_cases huu : tx.user_id = u
    · by_cases hvv : tx.storeStatus = "verified"
      · refine ⟨tx, ?_, huu, hvv⟩
        have hst : st = st1 := by
          simp only [verify_purchase, hft] at h
          rw [if_neg (not_not_intro huu), if_pos hvv] at h
          rcases hfs : findSub st u with _ | sub <;> rw [hfs] at h <;>
            simpa using congrArg Prod.fst h
        rw [← hst]
        exact hft
      · simp only [verify_purchase, hft] at h
        rw [if_neg (not_not_intro huu), if_neg hvv] at h
        by_cases hpp : (strLower (strTrim prov) = "" ∨ 32 < (strLower (strTrim prov)).length)
        · rw [if_pos hpp] at h
          simp at h
        · rw [if_neg hpp] at h
          by_cases hrr : r = true
          · rw [if_neg (by simp [hrr])] at h
            rcases hpl : findPlanActive st tx.plan_code with _ | plan
            · rw [hpl] at h
              simp at h
            · rw [hpl] at h
              simp only [Prod.mk.injEq] at h
              obtain ⟨hst, -⟩ := h
              refine ⟨{ tx with
                        storeStatus := "verified"
                        verifiedAt := some now
                        provider := some (strLower (strTrim prov)) }, ?_, huu, rfl⟩
              rw [← hst]
              rw [findTx_eq_of_txs _
                (saveTx st { tx with
                             storeStatus := "verified"
                             verifiedAt := some now
                             provider := some (strLower (strTrim prov)) })
                txId (upsert_subscription_unchanged _ _ _ _ _ _ _).1]
              exact findTx_saveTx st txId tx _ hft rfl
          · have hrf : r = false := by
              cases r
              · rfl
              · exact absurd rfl hrr
            rw [if_pos (by simp [hrf])] at h
            simp at h
    · simp only [verify_purchase, hft] at h
      rw [if_pos huu] at h
      simp at h

/-- C5: `verify_purchase` is idempotent on a verified transaction: after a
first call that returned a success payload (which leaves the transaction's
store status `verified`), a second call with the same `transaction_id`
returns transaction status `verified` together with the current
subscription state, and leaves the store — in particular the subscription's
`expires_at` — completely unchanged. -/
theorem verify_purchase_idempotent
    (now1 now2 : Int) (u txId : Nat) (p1 p2 : String) (r1 r2 : Bool)
    (st st1 : St) (ts : String) (os : Option Sub) (a g : Bool) (e : Option Int)
    (h : verify_purchase now1 u txId p1 r1 st = (st1, VerifyResult.ok ts os a g e)) :
    verify_purchase now2 u txId p2 r2 st1 =
      (st1,
       match findSub st1 u with
       | none => VerifyResult.ok "verified" none false false none
       | some sub =>
         VerifyResult.ok "verified" (some sub)
           (compute_subscription_status now2 (some sub.expires_at) sub.grace_until
             sub.auto_renew).2.1
           (compute_subscription_status now2 (some sub.expires_at) sub.grace_until
             sub.auto_renew).2.2
           (some sub.expires_at)) := by
  obtain ⟨tx, hfind, hu, hv⟩ :=
    verify_purchase_ok_tx now1 u txId p1 r1 st st1 ts os a g e h
  exact verify_purchase_verified now2 u txId p2 r2 st1 tx hfind hu hv

/-- Witness for C5: a concrete pending transaction is verified once, and the
replayed call returns the verified status with the unchanged subscription. -/
theorem verify_purchase_idempotent_witness :
    verify_purchase 0 7 1 "apple" true
        (St.mk [] [Plan.mk 2 "gold" 30 "active"] []
          [Tx.mk 1 7 SubscriptionSource.web "gold" "pending" none none none none none]
          [] 3) =
      (St.mk [] [Plan.mk 2 "gold" 30 "active"]
        [Sub.mk 3 7 SubscriptionStatus.active "gold" SubscriptionSource.web 0 2592000
          (some 5184000) true (some 1)]
        [Tx.mk 1 7 SubscriptionSource.web "gold" "verified" none (some 0) none
          (some "apple") none]
        [] 4,
       VerifyResult.ok "verified"
        (some (Sub.mk 3 7 SubscriptionStatus.active "gold" SubscriptionSource.web 0
          2592000 (some 5184000) true (some 1)))
        true false (some 2592000)) ∧
    verify_purchase 99 7 1 "" false
        (St.mk [] [Plan.mk 2 "gold" 30 "active"]
          [Sub.mk 3 7 SubscriptionStatus.active "gold" SubscriptionSource.web 0 2592000
            (some 5184000) true (some 1)]
          [Tx.mk 1 7 SubscriptionSource.web "gold" "verified" none (some 0) none
            (some "apple") none]
          [] 4) =
      (St.mk [] [Plan.mk 2 "gold" 30 "active"]
        [Sub.mk 3 7 SubscriptionStatus.active "gold" SubscriptionSource.web 0 2592000
          (some 5184000) true (some 1)]
        [Tx.mk 1 7 SubscriptionSource.web "gold" "verified" none (some 0) none
          (some "apple") none]
        [] 4,
       match findSub
          (St.mk [] [Plan.mk 2 "gold" 30 "active"]
            [Sub.mk 3 7 SubscriptionStatus.active "gold" SubscriptionSource.web 0 2592000
              (some 5184000) true (some 1)]
            [Tx.mk 1 7 SubscriptionSource.web "gold" "verified" none (some 0) none
              (some "apple") none]
            [] 4) 7 with
       | none => VerifyResult.ok "verified" none false false none
       | some sub =>
         VerifyResult.ok "verified" (some sub)
           (compute_subscription_status 99 (some sub.expires_at) sub.grace_until
             sub.auto_renew).2.1
           (compute_subscription_status 99 (some sub.expires_at) sub.grace_until
             sub.auto_renew).2.2
           (some sub.expires_at)) :=
  ⟨by decide,
   verify_purchase_idempotent 0 99 7 1 "apple" "" true false
     (St.mk [] [Plan.mk 2 "gold" 30 "active"] []
       [Tx.mk 1 7 SubscriptionSource.web "gold" "pending" none none none none none]
       [] 3)
     (St.mk [] [Plan.mk 2 "gold" 30 "active"]
       [Sub.mk 3 7 SubscriptionStatus.active "gold" SubscriptionSource.web 0 2592000
         (some 5184000) true (some 1)]
       [Tx.mk 1 7 SubscriptionSource.web "gold" "verified" none (some 0) none
         (some "apple") none]
       [] 4)
     "verified"
     (some (Sub.mk 3 7 SubscriptionStatus.active "gold" SubscriptionSource.web 0 2592000
       (some 5184000) true (some 1)))
     true false (some 2592000) (by decide)⟩

lemma claimMatches_iff (now : Int) (code : String) (d : PromoDoc) :
    claimMatches now code d = true ↔
      d.code = code ∧ d.status = PromoStatus.active ∧
      (∀ e, d.expires_at = some e → now < e) ∧ d.used_count < d.max_uses := by
  simp only [claimMatches, Bool.and_eq_true, decide_eq_true_eq]
  constructor
  · rintro ⟨⟨⟨h1, h2⟩, h3⟩, h4⟩
    refine ⟨h1, h2, ?_, h4⟩
    intro e he
    rw [he] at h3
    simpa using h3
  · rintro ⟨h1, h2, h3, h4⟩
    refine ⟨⟨⟨h1, h2⟩, ?_⟩, h4⟩
    cases hde : d.expires_at with
    | none => simp
    | some e => simpa using h3 e hde

lemma rollback_no_code_match (code : String) (l r : List PromoDoc)
    (hl : ∀ d ∈ l, ¬ d.code = code) :
    promo_atomic_rollback code (l ++ r) = l ++ promo_atomic_rollback code r := by
  induction l with
  | nil => simp
  | cons d ds ih =>
    have hd : ¬ rollbackMatches code d = true := by
      simp only [rollbackMatches, Bool.and_eq_true, decide_eq_true_eq]
      rintro ⟨h1, -⟩
      exact hl d (by simp) h1
    simp only [List.cons_append]
    rw [rollback_cons_neg _ hd, ih (fun x hx => hl x (by simp [hx]))]

lemma pairwise_no_code_left {code : String} {l r : List PromoDoc} {pre : PromoDoc}
    (hpw : (l ++ pre :: r).Pairwise (fun a b => a.code ≠ b.code))
    (hpre : pre.code = code) :
    ∀ d ∈ l, ¬ d.code = code := by
  intro d hd
  have := (List.pairwise_append.mp hpw).2.2 d hd pre (by simp)
  rw [hpre] at this
  exact this

lemma rollback_after_claim (now : Int) (code : String) (ps : List PromoDoc)
    (snap : PromoDoc)
    (hpw : ps.Pairwise (fun a b => a.code ≠ b.code))
    (hnn : ∀ d ∈ ps, 0 ≤ d.used_count)
    (h : (promo_atomic_claim now code ps).1 = some snap) :
    promo_atomic_rollback code (promo_atomic_claim now code ps).2 = ps := by
  obtain ⟨l, pre, r, hsplit, hl, hpre, hsnap, htail⟩ := claim_some_shape now code ps snap h
  subst hsplit
  rw [htail]
  have hprecode : pre.code = code := ((claimMatches_iff now code pre).mp hpre).1
  have hlcode : ∀ d ∈ l, ¬ d.code = code := pairwise_no_code_left hpw hprecode
  rw [rollback_no_code_match code l _ hlcode]
  congr 1
  have hpreuse : 0 ≤ pre.used_count := hnn pre (by simp)
  have hsnapmatch : rollbackMatches code snap = true := by
    subst hsnap
    simp only [rollbackMatches, Bool.and_eq_true, decide_eq_true_eq]
    exact ⟨hprecode, by show 0 < pre.used_count + 1; omega⟩
  rw [rollback_cons_pos r hsnapmatch]
  subst hsnap
  simp

lemma findPromo_split (code : String) (l r : List PromoDoc) (pre : PromoDoc)
    (hl : ∀ d ∈ l, ¬ d.code = code) (hpre : pre.code = code) :
    findPromo (l ++ pre :: r) code = some pre := by
  induction l with
  | nil =>
    simp only [List.nil_append, findPromo]
    exact List.find?_cons_of_pos _ (by simp [hpre])
  | cons d ds ih =>
    simp only [findPromo, List.cons_append]
    rw [List.find?_cons_of_neg _ (by simp [hl d (by simp)])]
    simpa [findPromo] using ih (fun x hx => hl x (by simp [hx]))

lemma filter_tx_fresh (l : List Tx) (n : Nat) (h : ∀ t ∈ l, ¬ t.id = n) :
    l.filter (fun x => decide (x.id ≠ n)) = l :=
  List.filter_eq_self.mpr (fun a ha => by simpa using h a ha)

lemma filter_red_fresh (l : List Redemption) (n : Nat) (h : ∀ t ∈ l, ¬ t.id = n) :
    l.filter (fun x => decide (x.id ≠ n)) = l :=
  List.filter_eq_self.mpr (fun a ha => by simpa using h a ha)

lemma upsert_subscription_nextId (now : Int) (st : St) (u : Nat) (pc : String)
    (src : SubscriptionSource) (add : Int) (txi : Option Nat) :
    st.nextId ≤ (upsert_subscription now st u pc src add txi).1.nextId := by
  cases hfs : findSub st u with
  | none => simp [upsert_subscription, hfs]
  | some ex => simp [upsert_subscription, hfs]

lemma activate_promo_deep (now : Int) (u : Nat) (raw : String) (raises : Bool)
    (st st' : St) (res : ActivateResult)
    (h : activate_promo now u raw raises st = (st', res))
    (hres : res = ActivateResult.reraised ∨ ∃ sub, res = ActivateResult.ok sub) :
    ∃ promo claimed,
      findPromo st.promos (normalize_code raw) = some promo ∧
      promo.status = PromoStatus.active ∧
      (match promo.expires_at with
       | some e => decide (e ≤ now)
       | none => false) = false ∧
      ¬ promo.duration_days ≤ 0 ∧
      (st.redemptions.any
        (fun r => decide (r.user_id = u) && decide (r.promo_code_id = promo.id))) = false ∧
      (promo_atomic_claim now (normalize_code raw) st.promos).1 = some claimed ∧
      activate_promo_finish now u (normalize_code raw) (some claimed.duration_days)
          promo.duration_days st.nextId (st.nextId + 1) raises
          { st with
            promos := (promo_atomic_claim now (normalize_code raw) st.promos).2
            txs := Tx.mk st.nextId u SubscriptionSource.promo "promo" "verified" none
              (some now) none none (some (normalize_code raw)) :: st.txs
            redemptions := Redemption.mk (st.nextId + 1) (normalize_code raw) promo.id u
              st.nextId :: st.redemptions
            nextId := st.nextId + 1 + 1 } = (st', res) := by
  have hbad : ∀ (n : Nat) (d : String) (s : St),
      (s, ActivateResult.err n d) = (st', res) → False := by
    intro n d s he
    have h2 := congrArg Prod.snd he
    rcases hres with hres | ⟨sub, hres⟩ <;> rw [hres] at h2 <;> simp at h2
  rcases hfp : findPromo st.promos (normalize_code raw) with _ | promo
  · simp only [activate_promo, hfp] at h
    exact (hbad _ _ _ h).elim
  · simp only [activate_promo, hfp] at h
    by_cases hstat : promo.status = PromoStatus.active
    · rw [if_neg (not_not_intro hstat)] at h
      by_cases hexp : (match promo.expires_at with
          | some e => decide (e ≤ now)
          | none => false) = true
      · rw [if_pos hexp] at h
        exact (hbad _ _ _ h).elim
      · rw [if_neg hexp] at h
        by_cases hdur : promo.duration_days ≤ 0
        · rw [if_pos hdur] at h
          exact (hbad _ _ _ h).elim
        · rw [if_neg hdur] at h
          by_cases hdup : (st.redemptions.any
              (fun r => decide (r.user_id = u) && decide (r.promo_code_id = promo.id))) = true
          · rw [if_pos hdup] at h
            exact (hbad _ _ _ h).elim
          · rw [if_neg hdup] at h
            rcases hcl : (promo_atomic_claim now (normalize_code raw) st.promos).1
              with _ | claimed
            · simp only [hcl] at h
              exact (hbad _ _ _ h).elim
            · simp only [hcl] at h
              exact ⟨promo, claimed, rfl, hstat, (by simpa using hexp), hdur,
                (by simpa using hdup), rfl, h⟩
    · rw [if_pos hstat] at h
      exact (hbad _ _ _ h).elim

/-- C3: when the subscription-extension step of `activate_promo` raises, the
handler rolls back the claim, deletes the redemption row and the
transaction, and re-raises: afterwards the promo collection (in particular
the code's `used_count`), the transaction log and the redemption ledger all
equal their pre-call state, and no redemption row exists for the
(user, promo) pair. -/
theorem activate_promo_step5_rollback (now : Int) (u : Nat) (raw : String)
    (st st' : St) (r : ActivateResult)
    (hwf : StWF st)
    (h : activate_promo now u raw true st = (st', r))
    (hr : r = ActivateResult.reraised) :
    st'.promos = st.promos ∧ st'.txs = st.txs ∧ st'.redemptions = st.redemptions ∧
    ∃ promo, findPromo st.promos (normalize_code raw) = some promo ∧
      ∀ rd ∈ st'.redemptions, ¬(rd.user_id = u ∧ rd.promo_code_id = promo.id) := by
  subst hr
  obtain ⟨promo, claimed, hfp, hstat, hexp, hdur, hdup, hcl, hfin⟩ :=
    activate_promo_deep now u raw true st st' _ h (Or.inl rfl)
  obtain ⟨hwtx, hwred, hwnn, hwpw⟩ := hwf
  by_cases hd2 : claimed.duration_days ≤ 0
  · simp only [activate_promo_finish, claimed_duration_days] at hfin
    rw [if_pos hd2] at hfin
    have h2 := congrArg Prod.snd hfin
    simp at h2
  · simp only [activate_promo_finish, claimed_duration_days] at hfin
    rw [if_neg hd2, if_pos trivial] at hfin
    have hst' := congrArg Prod.fst hfin
    simp only at hst'
    have hroll : promo_atomic_rollback (normalize_code raw)
        (promo_atomic_claim now (normalize_code raw) st.promos).2 = st.promos :=
      rollback_after_claim now (normalize_code raw) st.promos claimed hwpw hwnn hcl
    have hredfresh : ∀ x ∈ st.redemptions, ¬ x.id = st.nextId + 1 := by
      intro x hx
      have := hwred x hx
      omega
    have htxfresh : ∀ x ∈ st.txs, ¬ x.id = st.nextId := by
      intro x hx
      have := hwtx x hx
      omega
    have hdup' : ∀ rd ∈ st.redemptions, ¬(rd.user_id = u ∧ rd.promo_code_id = promo.id) := by
      intro rd hrd hc
      have := List.any_eq_false.mp hdup rd hrd
      simp only [Bool.and_eq_true, decide_eq_true_eq] at this
      exact this ⟨hc.1, hc.2⟩
    refine ⟨?_, ?_, ?_, promo, hfp, ?_⟩
    · rw [← hst']
      simp only [deleteTx, deleteRedemption]
      exact hroll
    · rw [← hst']
      simp only [deleteTx, deleteRedemption]
      rw [List.filter_cons_of_neg (by simp)]
      exact filter_tx_fresh _ _ htxfresh
    · rw [← hst']
      simp only [deleteTx, deleteRedemption]
      rw [List.filter_cons_of_neg (by simp)]
      exact filter_red_fresh _ _ hredfresh
    · rw [← hst']
      simp only [deleteTx, deleteRedemption]
      rw [List.filter_cons_of_neg (by simp)]
      rw [filter_red_fresh _ _ hredfresh]
      intro rd hrd
      exact hdup' rd hrd

lemma activate_promo_ok_shape (now : Int) (u : Nat) (raw : String) (st st1 : St)
    (sub : Sub)
    (hpw : st.promos.Pairwise (fun a b => a.code ≠ b.code))
    (h : activate_promo now u raw false st = (st1, ActivateResult.ok sub)) :
    ∃ l promo r,
      st.promos = l ++ promo :: r ∧
      (∀ d ∈ l, ¬ d.code = normalize_code raw) ∧
      promo.code = normalize_code raw ∧
      promo.status = PromoStatus.active ∧
      (∀ e, promo.expires_at = some e → now < e) ∧
      0 < promo.duration_days ∧
      (∀ rd ∈ st.redemptions, ¬(rd.user_id = u ∧ rd.promo_code_id = promo.id)) ∧
      st1.promos = l ++ { promo with used_count := promo.used_count + 1 } :: r ∧
      st1.redemptions = Redemption.mk (st.nextId + 1) (normalize_code raw) promo.id u
        st.nextId :: st.redemptions ∧
      st1.txs = Tx.mk st.nextId u SubscriptionSource.promo "promo" "verified" none
        (some now) none none (some (normalize_code raw)) :: st.txs ∧
      st.nextId + 2 ≤ st1.nextId := by
  obtain ⟨promo, claimed, hfp, hstat, hexp, hdur, hdup, hcl, hfin⟩ :=
    activate_promo_deep now u raw false st st1 _ h (Or.inr ⟨sub, rfl⟩)
  obtain ⟨l, pre, r, hsplit, hl, hpre, hsnap, htail⟩ :=
    claim_some_shape now (normalize_code raw) st.promos claimed hcl
  have hprecode : pre.code = normalize_code raw :=
    ((claimMatches_iff now (normalize_code raw) pre).mp hpre).1
  have hlcode : ∀ d ∈ l, ¬ d.code = normalize_code raw := by
    have hpw2 : (l ++ pre :: r).Pairwise (fun a b => a.code ≠ b.code) := hsplit ▸ hpw
    exact pairwise_no_code_left hpw2 hprecode
  have hfp2 : findPromo st.promos (normalize_code raw) = some pre := by
    rw [hsplit]
    exact findPromo_split _ _ _ _ hlcode hprecode
  have hpp : promo = pre := by
    rw [hfp] at hfp2
    exact Option.some_inj.mp hfp2
  subst hpp
  simp only [activate_promo_finish, claimed_duration_days] at hfin
  have hcdur : claimed.duration_days = promo.duration_days := by rw [hsnap]
  rw [hcdur, if_neg hdur, if_neg Bool.false_ne_true] at hfin
  have h1 := congrArg Prod.fst hfin
  simp only at h1
  refine ⟨l, promo, r, hsplit, hlcode, hprecode, hstat, ?_, not_le.mp hdur, ?_, ?_, ?_, ?_, ?_⟩
  · intro e he
    rw [he] at hexp
    simp only [decide_eq_false_iff_not] at hexp
    exact not_le.mp hexp
  · intro rd hrd hc
    have := List.any_eq_false.mp hdup rd hrd
    simp only [Bool.and_eq_true, decide_eq_true_eq] at this
    exact this ⟨hc.1, hc.2⟩
  · rw [← h1, (upsert_subscription_unchanged _ _ _ _ _ _ _).2.1]
    rw [show ({ st with
        promos := (promo_atomic_claim now (normalize_code raw) st.promos).2
        txs := Tx.mk st.nextId u SubscriptionSource.promo "promo" "verified" none
          (some now) none none (some (normalize_code raw)) :: st.txs
        redemptions := Redemption.mk (st.nextId + 1) (normalize_code raw) promo.id u
          st.nextId :: st.redemptions
        nextId := st.nextId + 1 + 1 } : St).promos =
      (promo_atomic_claim now (normalize_code raw) st.promos).2 from rfl]
    rw [htail, hsnap]
  · rw [← h1, (upsert_subscription_unchanged _ _ _ _ _ _ _).2.2.1]
  · rw [← h1, (upsert_subscription_unchanged _ _ _ _ _ _ _).1]
  · rw [← h1]
    have := upsert_subscription_nextId now
      { st with
        promos := (promo_atomic_claim now (normalize_code raw) st.promos).2
        txs := Tx.mk st.nextId u SubscriptionSource.promo "promo" "verified" none
          (some now) none none (some (normalize_code raw)) :: st.txs
        redemptions := Redemption.mk (st.nextId + 1) (normalize_code raw) promo.id u
          st.nextId :: st.redemptions
        nextId := st.nextId + 1 + 1 } u
      (match findSub
          { st with
            promos := (promo_atomic_claim now (normalize_code raw) st.promos).2
            txs := Tx.mk st.nextId u SubscriptionSource.promo "promo" "verified" none
              (some now) none none (some (normalize_code raw)) :: st.txs
            redemptions := Redemption.mk (st.nextId + 1) (normalize_code raw) promo.id u
              st.nextId :: st.redemptions
            nextId := st.nextId + 1 + 1 } u with
        | some ex => if ex.plan_code = "" then "promo" else ex.plan_code
        | none => "promo")
      SubscriptionSource.promo promo.duration_days (some st.nextId)
    simp only at this
    omega

/-- C4: once `activate_promo(user, code)` has succeeded, a second call with
the same user and code fails with the 400 already-used error produced by the
redemption ledger's `(user_id, promo_code_id)` uniqueness constraint: the
transaction the second call created is deleted again (net store change: only
the id allocator moved), and `used_count` was incremented exactly once,
namely by the first call. -/
theorem activate_promo_no_double (now : Int) (u : Nat) (raw : String) (st st1 : St)
    (sub : Sub)
    (hwf : StWF st)
    (h1 : activate_promo now u raw false st = (st1, ActivateResult.ok sub)) :
    activate_promo now u raw false st1 =
      ({ st1 with nextId := st1.nextId + 1 },
       ActivateResult.err 400 "Promo code already used") ∧
    ∃ l promo r,
      st.promos = l ++ promo :: r ∧ promo.code = normalize_code raw ∧
      st1.promos = l ++ { promo with used_count := promo.used_count + 1 } :: r := by
  obtain ⟨hwtx, hwred, hwnn, hwpw⟩ := hwf
  obtain ⟨l, promo, r, hsplit, hl, hcode, hstat, hexp, hdurpos, hdup, hP, hR, hT, hN⟩ :=
    activate_promo_ok_shape now u raw st st1 sub hwpw h1
  refine ⟨?_, l, promo, r, hsplit, hcode, hP⟩
  have hfp1 : findPromo st1.promos (normalize_code raw) =
      some { promo with used_count := promo.used_count + 1 } := by
    rw [hP]
    exact findPromo_split _ _ _ _ hl hcode
  simp only [activate_promo, hfp1]
  rw [if_neg (not_not_intro hstat)]
  have hexp' : ¬ ((match promo.expires_at with
      | some e => decide (e ≤ now)
      | none => false) = true) := by
    cases hpe : promo.expires_at with
    | none => simp
    | some e =>
      simp only [decide_eq_true_eq]
      exact fun hle => absurd (hexp e hpe) (not_lt.mpr hle)
  rw [if_neg hexp']
  rw [if_neg (not_le.mpr hdurpos)]
  have hdup1 : (st1.redemptions.any
      (fun rd => decide (rd.user_id = u) && decide (rd.promo_code_id =
        ({ promo with used_count := promo.used_count + 1 } : PromoDoc).id))) = true := by
    rw [hR]
    simp
  rw [if_pos hdup1]
  have hfresh : ∀ t ∈ st1.txs, ¬ t.id = st1.nextId := by
    rw [hT]
    intro t ht
    rcases List.mem_cons.mp ht with ht | ht
    · subst ht
      simp only
      omega
    · have := hwtx t ht
      omega
  simp only [deleteTx]
  rw [List.filter_cons_of_neg (by simp)]
  rw [filter_tx_fresh _ _ hfresh]

/-- Witness for C3 at a concrete store: with the subscription write forced to
fail, the handler re-raises and the promo collection, transaction log and
redemption ledger are exactly as before the call. -/
theorem activate_promo_step5_rollback_witness :
    StWF (St.mk [PromoDoc.mk 3 "A" 30 2 0 none PromoStatus.active] [] [] [] [] 10) ∧
    activate_promo 0 7 "A" true
        (St.mk [PromoDoc.mk 3 "A" 30 2 0 none PromoStatus.active] [] [] [] [] 10) =
      (St.mk [PromoDoc.mk 3 "A" 30 2 0 none PromoStatus.active] [] [] [] [] 12,
       ActivateResult.reraised) ∧
    ((St.mk [PromoDoc.mk 3 "A" 30 2 0 none PromoStatus.active] [] [] [] [] 12).promos =
        (St.mk [PromoDoc.mk 3 "A" 30 2 0 none PromoStatus.active] [] [] [] [] 10).promos ∧
      (St.mk [PromoDoc.mk 3 "A" 30 2 0 none PromoStatus.active] [] [] [] [] 12).txs =
        (St.mk [PromoDoc.mk 3 "A" 30 2 0 none PromoStatus.active] [] [] [] [] 10).txs ∧
      (St.mk [PromoDoc.mk 3 "A" 30 2 0 none PromoStatus.active] [] [] [] [] 12).redemptions =
        (St.mk [PromoDoc.mk 3 "A" 30 2 0 none PromoStatus.active] [] [] [] [] 10).redemptions ∧
      ∃ promo,
        findPromo (St.mk [PromoDoc.mk 3 "A" 30 2 0 none PromoStatus.active] [] [] [] []
            10).promos (normalize_code "A") = some promo ∧
        ∀ rd ∈ (St.mk [PromoDoc.mk 3 "A" 30 2 0 none PromoStatus.active] [] [] [] []
            12).redemptions, ¬(rd.user_id = 7 ∧ rd.promo_code_id = promo.id)) :=
  ⟨by refine ⟨by decide, by decide, by decide, ?_⟩; simp,
   by decide,
   activate_promo_step5_rollback 0 7 "A"
     (St.mk [PromoDoc.mk 3 "A" 30 2 0 none PromoStatus.active] [] [] [] [] 10)
     (St.mk [PromoDoc.mk 3 "A" 30 2 0 none PromoStatus.active] [] [] [] [] 12)
     ActivateResult.reraised
     (by refine ⟨by decide, by decide, by decide, ?_⟩; simp)
     (by decide) rfl⟩

/-- Witness for C4 at a concrete store: after a successful first redemption,
the replayed call fails with the already-used error and only the id
allocator moves. -/
theorem activate_promo_no_double_witness :
    StWF (St.mk [PromoDoc.mk 3 "A" 30 2 0 none PromoStatus.active] [] [] [] [] 10) ∧
    activate_promo 0 7 "A" false
        (St.mk [PromoDoc.mk 3 "A" 30 2 0 none PromoStatus.active] [] [] [] [] 10) =
      (St.mk [PromoDoc.mk 3 "A" 30 2 1 none PromoStatus.active] []
        [Sub.mk 12 7 SubscriptionStatus.active "promo" SubscriptionSource.promo 0 2592000
          (some 5184000) true (some 10)]
        [Tx.mk 10 7 SubscriptionSource.promo "promo" "verified" none (some 0) none none
          (some "A")]
        [Redemption.mk 11 "A" 3 7 10] 13,
       ActivateResult.ok (Sub.mk 12 7 SubscriptionStatus.active "promo"
         SubscriptionSource.promo 0 2592000 (some 5184000) true (some 10))) ∧
    (activate_promo 0 7 "A" false
        (St.mk [PromoDoc.mk 3 "A" 30 2 1 none PromoStatus.active] []
          [Sub.mk 12 7 SubscriptionStatus.active "promo" SubscriptionSource.promo 0 2592000
            (some 5184000) true (some 10)]
          [Tx.mk 10 7 SubscriptionSource.promo "promo" "verified" none (some 0) none none
            (some "A")]
          [Redemption.mk 11 "A" 3 7 10] 13) =
      ({ St.mk [PromoDoc.mk 3 "A" 30 2 1 none PromoStatus.active] []
          [Sub.mk 12 7 SubscriptionStatus.active "promo" SubscriptionSource.promo 0 2592000
            (some 5184000) true (some 10)]
          [Tx.mk 10 7 SubscriptionSource.promo "promo" "verified" none (some 0) none none
            (some "A")]
          [Redemption.mk 11 "A" 3 7 10] 13 with
         nextId := (St.mk [PromoDoc.mk 3 "A" 30 2 1 none PromoStatus.active] []
          [Sub.mk 12 7 SubscriptionStatus.active "promo" SubscriptionSource.promo 0 2592000
            (some 5184000) true (some 10)]
          [Tx.mk 10 7 SubscriptionSource.promo "promo" "verified" none (some 0) none none
            (some "A")]
          [Redemption.mk 11 "A" 3 7 10] 13).nextId + 1 },
       ActivateResult.err 400 "Promo code already used") ∧
     ∃ l promo r,
       (St.mk [PromoDoc.mk 3 "A" 30 2 0 none PromoStatus.active] [] [] [] []
         10).promos = l ++ promo :: r ∧
       promo.code = normalize_code "A" ∧
       (St.mk [PromoDoc.mk 3 "A" 30 2 1 none PromoStatus.active] []
         [Sub.mk 12 7 SubscriptionStatus.active "promo" SubscriptionSource.promo 0 2592000
           (some 5184000) true (some 10)]
         [Tx.mk 10 7 SubscriptionSource.promo "promo" "verified" none (some 0) none none
           (some "A")]
         [Redemption.mk 11 "A" 3 7 10] 13).promos =
         l ++ { promo with used_count := promo.used_count + 1 } :: r) :=
  ⟨by refine ⟨by decide, by decide, by decide, ?_⟩; simp,
   by decide,
   activate_promo_no_double 0 7 "A"
     (St.mk [PromoDoc.mk 3 "A" 30 2 0 none PromoStatus.active] [] [] [] [] 10)
     (St.mk [PromoDoc.mk 3 "A" 30 2 1 none PromoStatus.active] []
       [Sub.mk 12 7 SubscriptionStatus.active "promo" SubscriptionSource.promo 0 2592000
         (some 5184000) true (some 10)]
       [Tx.mk 10 7 SubscriptionSource.promo "promo" "verified" none (some 0) none none
         (some "A")]
       [Redemption.mk 11 "A" 3 7 10] 13)
     (Sub.mk 12 7 SubscriptionStatus.active "promo" SubscriptionSource.promo 0 2592000
       (some 5184000) true (some 10))
     (by refine ⟨by decide, by decide, by decide, ?_⟩; simp)
     (by decide)⟩

end FitnessSub
